import Mathlib

/-!
Verification of the batch-ingestion server (`cmd/server/main.go`) of the
Batch-for-Kafka repository: a shallow embedding of the job data model, the
upload handler (`createJob`), the background streaming task (`processJob`),
and the cancel handler (`cancelJob`), together with theorems settling the
specification claims about them.

Modelling conventions:
- Timestamps (`time.Now()`) are modelled as natural-number clock values passed
  in explicitly: `t0` for the instants at task start, `ts n` for the instant at
  which row `n` is processed, `t1` for the instant of the task's final update.
- The external environment of one row-loop iteration (the csv read outcome and
  the encode/publish outcome) is a `RowEvent`; the input stream is the list of
  events before `io.EOF`.
- Kafka effects are modelled as the lists of messages the task hands to the
  primary-topic writer and the dead-letter-topic writer.
- The broker dial at provisioning (`kafka.Dial`) is the boolean `dialOk`.
-/

namespace BatchKafka

/-- Job states, from the `JobState` constants of `main.go`. -/
inductive JobState where
  | PENDING
  | RUNNING
  | SUCCESS
  | PARTIAL_SUCCESS
  | FAILED
  | CANCELLED
deriving DecidableEq, Repr

/-- The `Totals` sub-record of `JobStatus`: `rows`, `ok`, `errors`. -/
structure Totals where
  rows : Nat
  ok : Nat
  errors : Nat
deriving DecidableEq, Repr

/-- The `Timings` sub-record of `JobStatus`: `waiting_ms`, `processing_ms`. -/
structure Timings where
  waitingMS : Int
  processingMS : Int
deriving DecidableEq, Repr

/-- The `JobStatus` record of `main.go`. `updatedAt` and `startedAt` are clock
values; `cancelled` is the advisory boolean (JSON-hidden in the source). -/
structure JobStatus where
  jobId : String
  modelId : String
  state : JobState
  totals : Totals
  timings : Timings
  updatedAt : Nat
  startedAt : Nat
  cancelled : Bool
deriving DecidableEq, Repr

/-- The `RejectedRow` record published to the dead-letter topic. -/
structure RejectedRow where
  jobId : String
  rowNumber : Nat
  rawData : String
  error : String
  timestamp : Nat
deriving DecidableEq, Repr

/-- Environment outcome of one iteration of the row loop in `processJob`:
`readError` is `rl.Read()` returning a non-EOF error (with the best-effort raw
text `strings.Join(rec, ",")`, empty when `rec == nil`); `publishFail` is a
successful read whose `json.Marshal` or `writer.WriteMessages` call fails;
`success` is a successful read whose publish to the primary topic succeeds.
The stream of events ends at `io.EOF`, which terminates the loop. -/
inductive RowEvent where
  | readError (raw : String) (msg : String)
  | publishFail (rec : List String) (msg : String)
  | success (rec : List String)
deriving DecidableEq, Repr

/-- One iteration of the `for` loop of `processJob` at row number `n`, at clock
value `t`, acting on the job record `js`. Returns the mutated record, the
messages sent to the dead-letter topic, and the records sent to the primary
topic, exactly as in `main.go` lines 338-380:
- read error: `js.Totals.Errors++`, `sendToDLQ(rowNumber, rawData, err)`;
- read ok then marshal/publish failure: `js.Totals.Rows++`,
  `js.Totals.Errors++`, `sendToDLQ(rowNumber, join(rec), err)`;
- read ok and publish ok: `js.Totals.Rows++`, `js.Totals.OK++`.
The loop body never touches `js.State`, `js.Cancelled` or `js.UpdatedAt`. -/
def stepRow (jid : String) (n t : Nat) (ev : RowEvent) (js : JobStatus) :
    JobStatus × List RejectedRow × List (List String) :=
  match ev with
  | .readError raw msg =>
      ({ js with totals := { js.totals with errors := js.totals.errors + 1 } },
       [⟨jid, n, raw, msg, t⟩], [])
  | .publishFail rec msg =>
      ({ js with totals := { js.totals with
            rows := js.totals.rows + 1, errors := js.totals.errors + 1 } },
       [⟨jid, n, String.intercalate "," rec, msg, t⟩], [])
  | .success rec =>
      ({ js with totals := { js.totals with
            rows := js.totals.rows + 1, ok := js.totals.ok + 1 } },
       [], [rec])

/-- The row loop of `processJob`, iterating `stepRow` over the event stream;
`n` is the value `rowNumber` holds for the first event (the loop starts it at
0 and increments at the top of each iteration, so the first read sees 1). -/
def runRows (jid : String) (ts : Nat → Nat) :
    List RowEvent → Nat → JobStatus → JobStatus × List RejectedRow × List (List String)
  | [], _, js => (js, [], [])
  | ev :: rest, n, js =>
      let r := stepRow jid n (ts n) ev js
      let r2 := runRows jid ts rest (n + 1) r.1
      (r2.1, r.2.1 ++ r2.2.1, r.2.2 ++ r2.2.2)

/-- Terminal-state resolution of `processJob` (`main.go` lines 384-391). -/
def finalState (t : Totals) : JobState :=
  if t.errors > 0 && t.ok > 0 then JobState.PARTIAL_SUCCESS
  else if t.errors > 0 then JobState.FAILED
  else JobState.SUCCESS

/-- Result of one run of the background task: the job record as the task
leaves it, and the messages handed to the dead-letter and primary writers. -/
structure ProcessResult where
  js : JobStatus
  dlqLog : List RejectedRow
  mainLog : List (List String)
deriving DecidableEq, Repr

/-- The background task `processJob` of `main.go`:
sets `State = RUNNING`, `StartedAt`, `UpdatedAt` (clock `t0`); dials the broker
(`dialOk`); on dial failure sets `State = FAILED`, `UpdatedAt` (clock `t1`) and
returns without touching the row loop; otherwise provisions the two topics
(idempotent, failures ignored), runs the row loop over the event stream, then
sets `ProcessingMS = t1 - t0`, resolves the terminal state from the counters,
and sets `UpdatedAt` (clock `t1`). The `Cancelled` field is never read or
written by the task. -/
def processJob (js : JobStatus) (dialOk : Bool) (events : List RowEvent)
    (t0 : Nat) (ts : Nat → Nat) (t1 : Nat) : ProcessResult :=
  let js1 : JobStatus :=
    { js with state := JobState.RUNNING, startedAt := t0, updatedAt := t0 }
  if dialOk then
    let r := runRows js1.jobId ts events 1 js1
    { js := { r.1 with
        timings := { r.1.timings with processingMS := (t1 : Int) - (t0 : Int) },
        state := finalState r.1.totals,
        updatedAt := t1 },
      dlqLog := r.2.1,
      mainLog := r.2.2 }
  else
    { js := { js1 with state := JobState.FAILED, updatedAt := t1 },
      dlqLog := [], mainLog := [] }

/-- The mutation the cancel handler applies to a found job record
(`main.go` lines 425-427): `State = CANCELLED`, `Cancelled = true`,
`UpdatedAt = time.Now()` (clock `t`). -/
def applyCancel (t : Nat) (js : JobStatus) : JobStatus :=
  { js with state := JobState.CANCELLED, cancelled := true, updatedAt := t }

/-- Lookup in the in-memory `jobs` map, modelled as an association list with
unique keys (the map insert in `createJob` prepends a fresh random key). -/
def lookupJob : List (String × JobStatus) → String → Option JobStatus
  | [], _ => none
  | (k, v) :: rest, id => if id = k then some v else lookupJob rest id

/-- Overwriting the value stored under a key of the `jobs` map (the effect of
mutating a found record through its pointer). -/
def setJob (id : String) (j' : JobStatus) :
    List (String × JobStatus) → List (String × JobStatus)
  | [] => []
  | (k, v) :: rest => (k, if k = id then j' else v) :: setJob id j' rest

/-- The `cancelJob` handler of `main.go`: on a known job id, mutate the stored
record with `applyCancel` and return it (HTTP 202 with the record as of that
instant); on an unknown id return `none` (the `JOB_NOT_FOUND` response) and
leave the store unchanged. -/
def cancelJob (jobs : List (String × JobStatus)) (id : String) (t : Nat) :
    Option JobStatus × List (String × JobStatus) :=
  match lookupJob jobs id with
  | none => (none, jobs)
  | some j => (some (applyCancel t j), setJob id (applyCancel t j) jobs)

/-- Variant of the row loop in which the external cancel handler fires once,
interleaved after `k` completed iterations (or, when `k` exceeds the stream
length, after the last iteration but before the task's terminal update).
Models a DELETE on the job arriving while the background task is mid-run. -/
def runRowsCancelAt (jid : String) (ts : Nat → Nat) (tc : Nat) :
    Nat → List RowEvent → Nat → JobStatus →
      JobStatus × List RejectedRow × List (List String)
  | 0, evs, n, js => runRows jid ts evs n (applyCancel tc js)
  | _ + 1, [], _, js => (applyCancel tc js, [], [])
  | k + 1, ev :: rest, n, js =>
      let r := stepRow jid n (ts n) ev js
      let r2 := runRowsCancelAt jid ts tc k rest (n + 1) r.1
      (r2.1, r.2.1 ++ r2.2.1, r.2.2 ++ r2.2.2)

/-- One run of `processJob` during which the cancel handler fires once at
interleaving point `k` (after `k` row iterations, before the task's final
state write; on the dial-failure path, before the `FAILED` write). -/
def processJobCancelledAt (k tc : Nat) (js : JobStatus) (dialOk : Bool)
    (events : List RowEvent) (t0 : Nat) (ts : Nat → Nat) (t1 : Nat) :
    ProcessResult :=
  let js1 : JobStatus :=
    { js with state := JobState.RUNNING, startedAt := t0, updatedAt := t0 }
  if dialOk then
    let r := runRowsCancelAt js1.jobId ts tc k events 1 js1
    { js := { r.1 with
        timings := { r.1.timings with processingMS := (t1 : Int) - (t0 : Int) },
        state := finalState r.1.totals,
        updatedAt := t1 },
      dlqLog := r.2.1,
      mainLog := r.2.2 }
  else
    { js := { applyCancel tc js1 with state := JobState.FAILED, updatedAt := t1 },
      dlqLog := [], mainLog := [] }

/-- Embedding of Go `filepath.Ext` restricted to scanning the reversed
character list: walking from the end of the path, stop at a path separator
(no extension) or at the first dot (the extension starts there). `acc` holds
the characters already passed, in original order. -/
def extRevAux (acc : List Char) : List Char → List Char
  | [] => []
  | c :: rest =>
      if c = '/' then []
      else if c = '.' then '.' :: acc
      else extRevAux (c :: acc) rest

/-- Go `filepath.Ext`: the suffix beginning at the final dot in the final
slash-separated element of the path, empty if there is no dot. -/
def filepathExt (name : String) : String :=
  ⟨extRevAux [] name.data.reverse⟩

/-- Boolean test that `pre` heads the list `s` (component of the substring
test below). -/
def headedBy : List Char → List Char → Bool
  | _, [] => true
  | [], _ :: _ => false
  | a :: as, b :: bs => a == b && headedBy as bs

/-- Go `strings.Contains` on character lists: some position of `s` is headed
by `sub`. -/
def containsSub (s sub : List Char) : Bool :=
  match s with
  | [] => sub.isEmpty
  | _ :: rest => headedBy s sub || containsSub rest sub

/-- The 4-byte Parquet magic `"PAR1"`. -/
def par1Magic : List Nat := [0x50, 0x41, 0x52, 0x31]

/-- The file-type sniff of `createJob` (`main.go` lines 213-221), applied to
the 4 bytes read by `io.ReadFull`: `"PAR1"` gives `parquet`; else a filename
whose extension contains `".csv"`, or a first byte other than `0x50`, gives
`csv`; else the upload is rejected (`UNSUPPORTED_FILE_TYPE`, modelled as
`none`). -/
def sniffFileType (buf : List Nat) (filename : String) : Option String :=
  if buf = par1Magic then some "parquet"
  else if containsSub (filepathExt filename).data ".csv".data || buf.headD 0 != 0x50 then
    some "csv"
  else none

/-- The upload size ceiling `maxUploadBytes` (1 GiB). -/
def maxUploadBytes : Nat := 1 <<< 30

/-- Outcome of the `createJob` handler: an error response (with its error
code) or HTTP 202 with a job id. -/
inductive CreateOutcome where
  | badRequest (code : String)
  | internalError
  | accepted (jobId : String)
deriving DecidableEq, Repr

/-- Arguments of the detached background task the handler starts with
`go processJob(js, file, fileType)`: the fresh job record, the full file
bytes (the reader was seeked back to the start after the sniff), and the
sniffed file type. -/
structure StartedTask where
  js : JobStatus
  fileBytes : List Nat
  fileType : String
deriving DecidableEq, Repr

/-- The `createJob` handler of `main.go` (lines 172-237). Request data:
`parseOk` for `ParseMultipartForm`, `modelId` for the `model_id` form value
(empty when missing), `file` as the optional file part (bytes and filename).
Checks, in source order: multipart parse; `model_id` present; `model_id` in
the model registry; file part present; size ceiling; `io.ReadFull` of 4 bytes
(fails when the part is shorter); seek back to start (always succeeds on the
in-memory part); sniff. Only then is `jobID = randomID()` generated (`newId`),
a PENDING record with zero counters inserted into the job store, and the
background task started. Returns the outcome, the job store after the call,
and the started task if any. -/
def createJob (modelReg : List String) (jobs : List (String × JobStatus))
    (parseOk : Bool) (modelId : String) (file : Option (List Nat × String))
    (newId : String) (t : Nat) :
    CreateOutcome × List (String × JobStatus) × Option StartedTask :=
  if !parseOk then (.badRequest "INVALID_MULTIPART", jobs, none)
  else if modelId = "" then (.badRequest "MISSING_MODEL_ID", jobs, none)
  else if modelId ∉ modelReg then (.badRequest "MODEL_NOT_FOUND", jobs, none)
  else
    match file with
    | none => (.badRequest "MISSING_FILE", jobs, none)
    | some (bytes, filename) =>
        if bytes.length > maxUploadBytes then (.badRequest "FILE_TOO_LARGE", jobs, none)
        else if bytes.length < 4 then (.badRequest "READ_ERROR", jobs, none)
        else
          match sniffFileType (bytes.take 4) filename with
          | none => (.badRequest "UNSUPPORTED_FILE_TYPE", jobs, none)
          | some fileType =>
              let js : JobStatus :=
                { jobId := newId, modelId := modelId,
                  state := JobState.PENDING,
                  totals := ⟨0, 0, 0⟩, timings := ⟨0, 0⟩,
                  updatedAt := t, startedAt := 0, cancelled := false }
              (.accepted newId, (newId, js) :: jobs, some ⟨js, bytes, fileType⟩)

/-! Characterization helpers: pure functions of the event stream that the row
loop is proved equal to. These are not source translations; they exist to
state and prove properties of `runRows`. -/

/-- Effect of one row event on the counters alone. -/
def stepTotals (ev : RowEvent) (t : Totals) : Totals :=
  match ev with
  | .readError _ _ => { t with errors := t.errors + 1 }
  | .publishFail _ _ => { t with rows := t.rows + 1, errors := t.errors + 1 }
  | .success _ => { t with rows := t.rows + 1, ok := t.ok + 1 }

/-- Counters after a whole event stream. -/
def runTotals (evs : List RowEvent) (t : Totals) : Totals :=
  evs.foldl (fun a e => stepTotals e a) t

/-- Dead-letter messages produced by an event stream whose first event has
row number `n`. -/
def dlqOf (jid : String) (ts : Nat → Nat) : List RowEvent → Nat → List RejectedRow
  | [], _ => []
  | .readError raw msg :: rest, n =>
      ⟨jid, n, raw, msg, ts n⟩ :: dlqOf jid ts rest (n + 1)
  | .publishFail rec msg :: rest, n =>
      ⟨jid, n, String.intercalate "," rec, msg, ts n⟩ :: dlqOf jid ts rest (n + 1)
  | .success _ :: rest, n => dlqOf jid ts rest (n + 1)

/-- Primary-topic records produced by an event stream. -/
def mainOf : List RowEvent → List (List String)
  | [] => []
  | .success rec :: rest => rec :: mainOf rest
  | .readError _ _ :: rest => mainOf rest
  | .publishFail _ _ :: rest => mainOf rest

/-- Classifier: the event is a successful parse and publish. -/
def isSuccessEv : RowEvent → Bool
  | .success _ => true
  | _ => false

/-- Classifier: the event is a parsed row whose encode or publish failed. -/
def isPublishFailEv : RowEvent → Bool
  | .publishFail _ _ => true
  | _ => false

/-- Classifier: the event is a csv read error. -/
def isReadErrorEv : RowEvent → Bool
  | .readError _ _ => true
  | _ => false

/-- Concrete fresh job record, as `createJob` builds it, used in witnesses and
counterexamples. -/
def job0 : JobStatus :=
  { jobId := "job1", modelId := "model1", state := JobState.PENDING,
    totals := ⟨0, 0, 0⟩, timings := ⟨0, 0⟩,
    updatedAt := 0, startedAt := 0, cancelled := false }

/-! Characterization lemmas for the row loop. -/

/-- The job record after one loop iteration: only the counters change. -/
theorem stepRow_fst (jid : String) (n t : Nat) (ev : RowEvent) (js : JobStatus) :
    (stepRow jid n t ev js).1 = { js with totals := stepTotals ev js.totals } := by
  cases ev <;> rfl

/-- Full characterization of the row loop: the final record is the input
record with the counters folded over the stream, and the logs are pure
functions of the stream. -/
theorem runRows_eq (jid : String) (ts : Nat → Nat) (evs : List RowEvent) :
    ∀ (n : Nat) (js : JobStatus),
      runRows jid ts evs n js =
        ({ js with totals := runTotals evs js.totals }, dlqOf jid ts evs n, mainOf evs) := by
  induction evs with
  | nil => intro n js; rfl
  | cons ev rest ih =>
      intro n js
      cases ev <;> simp [runRows, stepRow, stepTotals, runTotals, dlqOf, mainOf, ih]

/-- Unfolding equation for `runTotals` on a cons cell. -/
theorem runTotals_cons (ev : RowEvent) (evs : List RowEvent) (t : Totals) :
    runTotals (ev :: evs) t = runTotals evs (stepTotals ev t) := rfl

/-- Counting characterization of the counters: each counter grows by the
number of events of the corresponding kinds. -/
theorem runTotals_spec (evs : List RowEvent) :
    ∀ t : Totals,
      runTotals evs t =
        ⟨t.rows + (evs.countP isSuccessEv + evs.countP isPublishFailEv),
         t.ok + evs.countP isSuccessEv,
         t.errors + (evs.countP isReadErrorEv + evs.countP isPublishFailEv)⟩ := by
  induction evs with
  | nil => intro t; simp [runTotals]
  | cons ev rest ih =>
      intro t
      rw [runTotals_cons, ih]
      cases ev <;>
        simp [List.countP_cons, isSuccessEv, isPublishFailEv,
          isReadErrorEv, stepTotals, Totals.mk.injEq] <;>
        omega

/-- The loop iteration commutes with an external cancel write: the iteration
touches only the counters, the cancel write touches only `state`, `cancelled`
and `updatedAt`. -/
theorem stepRow_applyCancel (jid : String) (n t tc : Nat) (ev : RowEvent)
    (js : JobStatus) :
    stepRow jid n t ev (applyCancel tc js) =
      (applyCancel tc (stepRow jid n t ev js).1, (stepRow jid n t ev js).2) := by
  cases ev <;> rfl

/-- The whole row loop commutes with an external cancel write applied to its
input record. -/
theorem runRows_applyCancel (jid : String) (ts : Nat → Nat) (tc : Nat)
    (evs : List RowEvent) :
    ∀ (n : Nat) (js : JobStatus),
      runRows jid ts evs n (applyCancel tc js) =
        (applyCancel tc (runRows jid ts evs n js).1, (runRows jid ts evs n js).2) := by
  intro n js
  rw [runRows_eq, runRows_eq]
  rfl

/-- A run of the row loop with a cancel write interleaved at any point `k`
produces the record of the plain run with the cancel fields overridden, and
exactly the same log messages. -/
theorem runRowsCancelAt_eq (jid : String) (ts : Nat → Nat) (tc : Nat) :
    ∀ (evs : List RowEvent) (k n : Nat) (js : JobStatus),
      runRowsCancelAt jid ts tc k evs n js =
        (applyCancel tc (runRows jid ts evs n js).1, (runRows jid ts evs n js).2) := by
  intro evs
  induction evs with
  | nil =>
      intro k n js
      cases k with
      | zero => simp [runRowsCancelAt, runRows]
      | succ k => simp [runRowsCancelAt, runRows]
  | cons ev rest ih =>
      intro k n js
      cases k with
      | zero => simp [runRowsCancelAt, runRows_applyCancel]
      | succ k => simp [runRowsCancelAt, runRows, ih]

/-- Looking up the updated key after `setJob` yields the new record, provided
the key was present. -/
theorem lookupJob_setJob (id : String) (j' : JobStatus) :
    ∀ (jobs : List (String × JobStatus)) (j : JobStatus),
      lookupJob jobs id = some j →
      lookupJob (setJob id j' jobs) id = some j' := by
  intro jobs
  induction jobs with
  | nil => intro j h; simp [lookupJob] at h
  | cons p rest ih =>
      intro j h
      obtain ⟨k, v⟩ := p
      by_cases hk : id = k
      · simp [lookupJob, setJob, hk]
      · simp [lookupJob, hk] at h
        simp [lookupJob, setJob, hk]
        exact ih j h

/-- Looking up any other key is unaffected by `setJob`. -/
theorem lookupJob_setJob_ne (id id2 : String) (j' : JobStatus) (h : id2 ≠ id) :
    ∀ jobs : List (String × JobStatus),
      lookupJob (setJob id j' jobs) id2 = lookupJob jobs id2 := by
  intro jobs
  induction jobs with
  | nil => rfl
  | cons p rest ih =>
      obtain ⟨k, v⟩ := p
      by_cases h2 : id2 = k
      · have hk : ¬k = id := fun he => h (h2.trans he)
        simp [lookupJob, setJob, h2, hk]
      · simp [lookupJob, setJob, h2, ih]

/-- Bridge between the boolean conditional of the source and its
propositional reading. -/
theorem finalState_eq_ite (t : Totals) :
    finalState t =
      if 0 < t.errors ∧ 0 < t.ok then JobState.PARTIAL_SUCCESS
      else if 0 < t.errors then JobState.FAILED
      else JobState.SUCCESS := by
  simp [finalState, Bool.and_eq_true, decide_eq_true_eq]

/-- Counting events over an all-success stream: every event is a success. -/
theorem countP_success_map (recs : List (List String)) :
    (recs.map RowEvent.success).countP isSuccessEv = recs.length := by
  induction recs with
  | nil => rfl
  | cons r rest ih => simp [List.countP_cons, isSuccessEv, ih]

/-- Counting events over an all-success stream: no publish failures. -/
theorem countP_publishFail_map (recs : List (List String)) :
    (recs.map RowEvent.success).countP isPublishFailEv = 0 := by
  induction recs with
  | nil => rfl
  | cons r rest ih => simp [List.countP_cons, isPublishFailEv, ih]

/-- Counting events over an all-success stream: no read errors. -/
theorem countP_readError_map (recs : List (List String)) :
    (recs.map RowEvent.success).countP isReadErrorEv = 0 := by
  induction recs with
  | nil => rfl
  | cons r rest ih => simp [List.countP_cons, isReadErrorEv, ih]

/-- An all-success stream sends nothing to the dead-letter topic. -/
theorem dlqOf_map_success (jid : String) (ts : Nat → Nat) (recs : List (List String)) :
    ∀ n : Nat, dlqOf jid ts (recs.map RowEvent.success) n = [] := by
  induction recs with
  | nil => intro n; rfl
  | cons r rest ih => intro n; simp [dlqOf, ih]

/-- C1: for every job whose background task reaches end-of-input (the broker
dial succeeded and the row loop ran to `io.EOF`), the terminal state is
resolved exactly from the final counters: PARTIAL_SUCCESS if `errors > 0` and
`ok > 0`, FAILED if `errors > 0` and `ok == 0`, and SUCCESS if `errors == 0`. -/
theorem processJob_state_from_counters (js : JobStatus) (events : List RowEvent)
    (t0 : Nat) (ts : Nat → Nat) (t1 : Nat) :
    (processJob js true events t0 ts t1).js.state =
      (if 0 < (processJob js true events t0 ts t1).js.totals.errors ∧
          0 < (processJob js true events t0 ts t1).js.totals.ok then
        JobState.PARTIAL_SUCCESS
       else if 0 < (processJob js true events t0 ts t1).js.totals.errors then
        JobState.FAILED
       else JobState.SUCCESS) := by
  simp only [processJob, if_true, runRows_eq]
  exact finalState_eq_ite _

/-- C2 counterexample: on a job with fresh counters, a single well-parsed row
whose publish to the primary topic fails leaves `totals.rows = 1` and
`totals.ok = 0`, so `rows == ok` does not hold after streaming. -/
theorem rows_eq_ok_refuted :
    (processJob job0 true [RowEvent.publishFail ["a", "b"] "kafka write error"]
        0 (fun m => m) 2).js.totals.rows ≠
      (processJob job0 true [RowEvent.publishFail ["a", "b"] "kafka write error"]
        0 (fun m => m) 2).js.totals.ok := by
  decide

/-- C2 (amended): `rows` counts successfully parsed rows and `ok` counts rows
confirmed published, so at every point during and after row streaming
`totals.rows == totals.ok + p`, where `p` is the number of parsed rows whose
encode or publish failed; hence `ok ≤ rows` always, and `rows == ok` holds
exactly when no parsed row failed to publish. -/
theorem rows_eq_ok_plus_publishFailures (js : JobStatus) (h : js.totals = ⟨0, 0, 0⟩)
    (jid : String) (ts : Nat → Nat) (events : List RowEvent) (n t0 t1 : Nat) :
    (((runRows jid ts events n js).1).totals.rows =
        ((runRows jid ts events n js).1).totals.ok + events.countP isPublishFailEv ∧
      ((runRows jid ts events n js).1).totals.ok ≤
        ((runRows jid ts events n js).1).totals.rows) ∧
    ((processJob js true events t0 ts t1).js.totals.rows =
        (processJob js true events t0 ts t1).js.totals.ok +
          events.countP isPublishFailEv ∧
      (processJob js true events t0 ts t1).js.totals.ok ≤
        (processJob js true events t0 ts t1).js.totals.rows) := by
  have hT : runTotals events js.totals =
      ⟨events.countP isSuccessEv + events.countP isPublishFailEv,
       events.countP isSuccessEv,
       events.countP isReadErrorEv + events.countP isPublishFailEv⟩ := by
    rw [runTotals_spec, h]
    simp
  constructor
  · rw [runRows_eq]
    simp [hT]
  · simp only [processJob, if_true, runRows_eq]
    simp [hT]

/-- C2 witness: a stream with one published row and one publish failure has
`rows = 2 = ok + 1` and `ok = 1 ≤ 2` both mid-loop and after completion. -/
theorem rows_eq_ok_plus_publishFailures_witness :
    job0.totals = ⟨0, 0, 0⟩ ∧
    (let evs := [RowEvent.success ["a"], RowEvent.publishFail ["b"] "err"]
     let tL := ((runRows "job1" (fun m => m) evs 1 job0).1).totals
     let tP := (processJob job0 true evs 0 (fun m => m) 3).js.totals
     (tL.rows = tL.ok + evs.countP isPublishFailEv ∧ tL.ok ≤ tL.rows) ∧
     (tP.rows = tP.ok + evs.countP isPublishFailEv ∧ tP.ok ≤ tP.rows)) :=
  ⟨rfl, rows_eq_ok_plus_publishFailures job0 rfl "job1" (fun m => m)
    [RowEvent.success ["a"], RowEvent.publishFail ["b"] "err"] 1 0 3⟩

/-- C3: for every delimited input of N well-formed rows whose publishes to the
primary topic all succeed, after the background task completes the totals are
`rows = N`, `ok = N`, `errors = 0`, the state is SUCCESS, and no message was
written to the dead-letter topic for the job. -/
theorem processJob_allSuccess (js : JobStatus) (recs : List (List String))
    (t0 : Nat) (ts : Nat → Nat) (t1 : Nat) (h : js.totals = ⟨0, 0, 0⟩) :
    (processJob js true (recs.map RowEvent.success) t0 ts t1).js.totals.rows =
      recs.length ∧
    (processJob js true (recs.map RowEvent.success) t0 ts t1).js.totals.ok =
      recs.length ∧
    (processJob js true (recs.map RowEvent.success) t0 ts t1).js.totals.errors = 0 ∧
    (processJob js true (recs.map RowEvent.success) t0 ts t1).js.state =
      JobState.SUCCESS ∧
    (processJob js true (recs.map RowEvent.success) t0 ts t1).dlqLog = [] := by
  have hT : runTotals (recs.map RowEvent.success) js.totals =
      ⟨recs.length, recs.length, 0⟩ := by
    rw [runTotals_spec, h, countP_success_map, countP_publishFail_map,
      countP_readError_map]
    simp
  simp only [processJob, if_true, runRows_eq]
  simp [hT, finalState, dlqOf_map_success]

/-- C3 witness: a two-row all-success upload ends with totals (2, 2, 0), state
SUCCESS and an empty dead-letter log. -/
theorem processJob_allSuccess_witness :
    job0.totals = ⟨0, 0, 0⟩ ∧
    ((processJob job0 true ([["a"], ["b", "c"]].map RowEvent.success)
        0 (fun m => m) 3).js.totals.rows = [["a"], ["b", "c"]].length ∧
     (processJob job0 true ([["a"], ["b", "c"]].map RowEvent.success)
        0 (fun m => m) 3).js.totals.ok = [["a"], ["b", "c"]].length ∧
     (processJob job0 true ([["a"], ["b", "c"]].map RowEvent.success)
        0 (fun m => m) 3).js.totals.errors = 0 ∧
     (processJob job0 true ([["a"], ["b", "c"]].map RowEvent.success)
        0 (fun m => m) 3).js.state = JobState.SUCCESS ∧
     (processJob job0 true ([["a"], ["b", "c"]].map RowEvent.success)
        0 (fun m => m) 3).dlqLog = []) :=
  ⟨rfl, processJob_allSuccess job0 [["a"], ["b", "c"]] 0 (fun m => m) 3 rfl⟩

/-- C4: when the broker dial fails during provisioning at job start, the job
ends FAILED, the row loop is never entered (all counters stay 0 on the fresh
record created by the upload handler) and nothing is handed to either topic
writer. -/
theorem processJob_dialFailure_atomic (js : JobStatus) (events : List RowEvent)
    (t0 : Nat) (ts : Nat → Nat) (t1 : Nat) (h : js.totals = ⟨0, 0, 0⟩) :
    (processJob js false events t0 ts t1).js.state = JobState.FAILED ∧
    (processJob js false events t0 ts t1).js.totals = ⟨0, 0, 0⟩ ∧
    (processJob js false events t0 ts t1).dlqLog = [] ∧
    (processJob js false events t0 ts t1).mainLog = [] := by
  simp [processJob, h]

/-- C4 witness: with an unreachable broker, a fresh job with a two-event
stream ends FAILED with zero counters and empty logs. -/
theorem processJob_dialFailure_atomic_witness :
    job0.totals = ⟨0, 0, 0⟩ ∧
    (let evs := [RowEvent.success ["a"], RowEvent.readError "x" "parse error"]
     (processJob job0 false evs 0 (fun m => m) 3).js.state = JobState.FAILED ∧
     (processJob job0 false evs 0 (fun m => m) 3).js.totals = ⟨0, 0, 0⟩ ∧
     (processJob job0 false evs 0 (fun m => m) 3).dlqLog = [] ∧
     (processJob job0 false evs 0 (fun m => m) 3).mainLog = []) :=
  ⟨rfl, processJob_dialFailure_atomic job0
    [RowEvent.success ["a"], RowEvent.readError "x" "parse error"] 0 (fun m => m) 3 rfl⟩

/-- C5 counterexample: a 4-byte prefix `"PARQ"` (first byte `0x50`, not the
magic) on a filename without a `.csv` extension is classified neither as
parquet nor as csv: the upload is rejected as unsupported, refuting the
"csv otherwise, regardless of filename extension" part of the claim. -/
theorem sniff_csv_otherwise_refuted :
    sniffFileType [0x50, 0x41, 0x52, 0x51] "data.bin" ≠ some "csv" ∧
    [0x50, 0x41, 0x52, 0x51] ≠ par1Magic ∧
    ([0x50, 0x41, 0x52, 0x51] : List Nat).length = 4 := by
  refine ⟨?_, by decide, rfl⟩
  decide

/-- C5 (amended): the sniff reads exactly the first 4 bytes (classification is
unchanged by anything past them), classifies as parquet iff they equal
`"PAR1"`; as csv iff they differ from the magic and the filename extension
contains `".csv"` or the first byte is not `0x50`; otherwise (first byte
`0x50`, no `.csv` extension, not the magic) the upload is rejected as
unsupported; a successful classification hands the background task the stream
from position 0. -/
theorem sniff_classification (buf : List Nat) (filename : String)
    (h : buf.length = 4) :
    (sniffFileType buf filename = some "parquet" ↔ buf = par1Magic) ∧
    (sniffFileType buf filename = some "csv" ↔
      buf ≠ par1Magic ∧
        (containsSub (filepathExt filename).data ".csv".data = true ∨
          buf.headD 0 ≠ 0x50)) ∧
    (sniffFileType buf filename = none ↔
      buf ≠ par1Magic ∧
        containsSub (filepathExt filename).data ".csv".data = false ∧
        buf.headD 0 = 0x50) ∧
    (∀ more : List Nat,
      sniffFileType ((buf ++ more).take 4) filename = sniffFileType buf filename) ∧
    (∀ (modelReg : List String) (jobs : List (String × JobStatus))
        (parseOk : Bool) (modelId : String) (file : Option (List Nat × String))
        (newId : String) (t : Nat) (tsk : StartedTask),
      (createJob modelReg jobs parseOk modelId file newId t).2.2 = some tsk →
      ∃ fname, file = some (tsk.fileBytes, fname)) := by
  have key : sniffFileType buf filename =
      (if buf = par1Magic then some "parquet"
       else if containsSub (filepathExt filename).data ".csv".data = true ∨
          buf.headD 0 ≠ 0x50 then some "csv"
       else none) := by
    simp [sniffFileType, Bool.or_eq_true, bne_iff_ne]
  refine ⟨?_, ?_, ?_, ?_, ?_⟩
  · rw [key]
    by_cases h1 : buf = par1Magic
    · rw [if_pos h1]
      exact iff_of_true rfl h1
    · rw [if_neg h1]
      refine iff_of_false ?_ h1
      by_cases h2 : containsSub (filepathExt filename).data ".csv".data = true ∨
          buf.headD 0 ≠ 0x50
      · rw [if_pos h2]
        exact fun hx => absurd (Option.some.inj hx) (by decide)
      · rw [if_neg h2]; exact fun hx => by cases hx
  · rw [key]
    by_cases h1 : buf = par1Magic
    · rw [if_pos h1]
      refine iff_of_false (fun hx => absurd (Option.some.inj hx) (by decide))
        (fun hx => hx.1 h1)
    · rw [if_neg h1]
      by_cases h2 : containsSub (filepathExt filename).data ".csv".data = true ∨
          buf.headD 0 ≠ 0x50
      · rw [if_pos h2]
        exact iff_of_true rfl ⟨h1, h2⟩
      · rw [if_neg h2]
        exact iff_of_false (fun hx => by cases hx) (fun hx => h2 hx.2)
  · rw [key]
    by_cases h1 : buf = par1Magic
    · rw [if_pos h1]
      refine iff_of_false (fun hx => by cases hx) (fun hx => hx.1 h1)
    · rw [if_neg h1]
      by_cases h2 : containsSub (filepathExt filename).data ".csv".data = true ∨
          buf.headD 0 ≠ 0x50
      · rw [if_pos h2]
        refine iff_of_false (fun hx => by cases hx) ?_
        rintro ⟨-, hc, hd⟩
        rcases h2 with h2 | h2
        · rw [hc] at h2
          cases h2
        · exact h2 hd
      · rw [if_neg h2]
        refine iff_of_true rfl ⟨h1, ?_, ?_⟩
        · cases hcv : containsSub (filepathExt filename).data ".csv".data
          · rfl
          · exact absurd (Or.inl hcv) h2
        · by_contra hd
          exact h2 (Or.inr hd)
  · intro more
    rw [List.take_append_eq_append_take, h]
    simp only [Nat.sub_self, List.take_zero, List.append_nil]
    rw [← h, List.take_length]
  · intro modelReg jobs parseOk modelId file newId t tsk hTask
    unfold createJob at hTask
    by_cases hp : parseOk = true
    · by_cases hm : modelId = ""
      · simp [hp, hm] at hTask
      · by_cases hr : modelId ∈ modelReg
        · match file with
          | none => simp [hp, hm, hr] at hTask
          | some (bytes, fname) =>
              refine ⟨fname, ?_⟩
              by_cases hs : bytes.length > maxUploadBytes
              · simp [hp, hm, hr, hs] at hTask
              · by_cases h4 : bytes.length < 4
                · simp [hp, hm, hr, hs, h4] at hTask
                · rcases hsn : sniffFileType (bytes.take 4) fname with _ | ft
                  · simp [hp, hm, hr, hs, h4, hsn] at hTask
                  · simp [hp, hm, hr, hs, h4, hsn] at hTask
                    simp [← hTask]
        · simp [hp, hm, hr] at hTask
    · simp [hp] at hTask

/-- C5 witness: the exact magic sequence on a non-csv filename is classified
parquet, and a non-magic prefix with first byte `0x00` is classified csv. -/
theorem sniff_classification_witness :
    ([0x50, 0x41, 0x52, 0x31] : List Nat).length = 4 ∧
    sniffFileType [0x50, 0x41, 0x52, 0x31] "upload.bin" = some "parquet" ∧
    ([0x00, 0x41, 0x52, 0x31] : List Nat).length = 4 ∧
    sniffFileType [0x00, 0x41, 0x52, 0x31] "upload.bin" = some "csv" :=
  ⟨rfl,
   (sniff_classification [0x50, 0x41, 0x52, 0x31] "upload.bin" rfl).1.mpr rfl,
   rfl,
   (sniff_classification [0x00, 0x41, 0x52, 0x31] "upload.bin" rfl).2.1.mpr
     ⟨by decide, Or.inr (by decide)⟩⟩

/-- C6: every upload request whose `model_id` is absent from the model
registry is rejected with an error response before provisioning: the job store
is unchanged and no background task (hence no topic creation, which only the
task performs) is started. -/
theorem createJob_unknownModel_rejected (modelReg : List String)
    (jobs : List (String × JobStatus)) (parseOk : Bool) (modelId : String)
    (file : Option (List Nat × String)) (newId : String) (t : Nat)
    (h : modelId ∉ modelReg) :
    (∃ code, (createJob modelReg jobs parseOk modelId file newId t).1 =
        CreateOutcome.badRequest code) ∧
    (createJob modelReg jobs parseOk modelId file newId t).2.1 = jobs ∧
    (createJob modelReg jobs parseOk modelId file newId t).2.2 = none := by
  cases parseOk with
  | false => exact ⟨⟨"INVALID_MULTIPART", rfl⟩, rfl, rfl⟩
  | true =>
      by_cases hm : modelId = ""
      · refine ⟨⟨"MISSING_MODEL_ID", ?_⟩, ?_, ?_⟩ <;> simp [createJob, hm]
      · refine ⟨⟨"MODEL_NOT_FOUND", ?_⟩, ?_, ?_⟩ <;> simp [createJob, hm, h]

/-- C6 witness: uploading against the unknown model id `"m2"` with only
`"m1"` registered changes nothing and starts nothing. -/
theorem createJob_unknownModel_rejected_witness :
    "m2" ∉ ["m1"] ∧
    ((∃ code, (createJob ["m1"] [] true "m2" (some ([0, 1, 2, 3], "a.csv")) "j1" 5).1 =
        CreateOutcome.badRequest code) ∧
     (createJob ["m1"] [] true "m2" (some ([0, 1, 2, 3], "a.csv")) "j1" 5).2.1 = [] ∧
     (createJob ["m1"] [] true "m2" (some ([0, 1, 2, 3], "a.csv")) "j1" 5).2.2 = none) :=
  ⟨by decide,
   createJob_unknownModel_rejected ["m1"] [] true "m2"
     (some ([0, 1, 2, 3], "a.csv")) "j1" 5 (by decide)⟩

/-- C7: cancelling a known job id sets its state to CANCELLED, its cancelled
flag to true and refreshes `updated_at`, whatever the current state (the rest
of the record, counters included, is returned and stored as of that instant);
cancelling an unknown id returns not-found and changes no job record. -/
theorem cancelJob_spec (jobs : List (String × JobStatus)) (id : String) (t : Nat) :
    (∀ j, lookupJob jobs id = some j →
      (cancelJob jobs id t).1 =
        some { j with state := JobState.CANCELLED, cancelled := true, updatedAt := t } ∧
      lookupJob (cancelJob jobs id t).2 id =
        some { j with state := JobState.CANCELLED, cancelled := true, updatedAt := t } ∧
      ∀ id2, id2 ≠ id → lookupJob (cancelJob jobs id t).2 id2 = lookupJob jobs id2) ∧
    (lookupJob jobs id = none → cancelJob jobs id t = (none, jobs)) := by
  constructor
  · intro j hj
    refine ⟨?_, ?_, ?_⟩
    · simp [cancelJob, hj, applyCancel]
    · simp only [cancelJob, hj]
      exact lookupJob_setJob id (applyCancel t j) jobs j hj
    · intro id2 h2
      simp only [cancelJob, hj]
      exact lookupJob_setJob_ne id id2 (applyCancel t j) h2 jobs
  · intro hn
    simp [cancelJob, hn]

/-- C7 witness: cancelling the stored job `"job1"` at clock 7 returns and
stores the record with state CANCELLED, cancelled set and `updated_at = 7`,
leaving other ids untouched; cancelling the unknown id `"zz"` on an empty
store returns not-found. -/
theorem cancelJob_spec_witness :
    lookupJob [("job1", job0)] "job1" = some job0 ∧
    (cancelJob [("job1", job0)] "job1" 7).1 =
      some { job0 with state := JobState.CANCELLED, cancelled := true, updatedAt := 7 } ∧
    lookupJob [] "zz" = none ∧
    cancelJob [] "zz" 7 = (none, []) :=
  ⟨rfl,
   ((cancelJob_spec [("job1", job0)] "job1" 7).1 job0 rfl).1,
   rfl,
   (cancelJob_spec [] "zz" 7).2 rfl⟩

/-- C8: the background task never reads the cancelled flag or a CANCELLED
state: a run in which an external cancel write lands at any interleaving
point `k` (before any row, between any two rows, after the last row, or
before the FAILED write of the dial-failure path) performs the same row
processing (identical dead-letter and primary messages) and ends by writing
the same terminal state and the same counters as the undisturbed run — the
last writer wins on `state`. -/
theorem processJob_cancel_oblivious (k tc : Nat) (js : JobStatus) (dialOk : Bool)
    (events : List RowEvent) (t0 : Nat) (ts : Nat → Nat) (t1 : Nat) :
    (processJobCancelledAt k tc js dialOk events t0 ts t1).js.state =
      (processJob js dialOk events t0 ts t1).js.state ∧
    (processJobCancelledAt k tc js dialOk events t0 ts t1).js.totals =
      (processJob js dialOk events t0 ts t1).js.totals ∧
    (processJobCancelledAt k tc js dialOk events t0 ts t1).dlqLog =
      (processJob js dialOk events t0 ts t1).dlqLog ∧
    (processJobCancelledAt k tc js dialOk events t0 ts t1).mainLog =
      (processJob js dialOk events t0 ts t1).mainLog := by
  cases dialOk with
  | false => simp [processJob, processJobCancelledAt, applyCancel]
  | true => simp [processJob, processJobCancelledAt, runRowsCancelAt_eq, applyCancel]

/-- C9 counterexample: a loop iteration at clock 5 that increments the rows
and ok counters of a fresh job leaves `updated_at` at its old value 0, so a
counter mutation does not refresh `updated_at` to the time of the operation. -/
theorem updatedAt_counter_refuted :
    ((runRows "job1" (fun _ => 5) [RowEvent.success ["a"]] 1 job0).1).totals ≠
      job0.totals ∧
    ((runRows "job1" (fun _ => 5) [RowEvent.success ["a"]] 1 job0).1).updatedAt =
      job0.updatedAt ∧
    job0.updatedAt ≠ 5 := by
  refine ⟨by decide, rfl, by decide⟩

/-- C9 (amended): state mutations refresh `updated_at` — the cancel handler
stamps it with the cancel instant, and the background task stamps it at its
final update (terminal resolution or provisioning failure) — but the counter
increments inside the row loop do not touch it: across the whole loop
`updated_at` keeps the value set when the task started. -/
theorem updatedAt_discipline :
    (∀ (jobs : List (String × JobStatus)) (id : String) (t : Nat) (j : JobStatus),
        lookupJob jobs id = some j →
        ∃ j2, (cancelJob jobs id t).1 = some j2 ∧ j2.updatedAt = t) ∧
    (∀ (js : JobStatus) (dialOk : Bool) (events : List RowEvent) (t0 : Nat)
        (ts : Nat → Nat) (t1 : Nat),
        (processJob js dialOk events t0 ts t1).js.updatedAt = t1) ∧
    (∀ (jid : String) (ts : Nat → Nat) (events : List RowEvent) (n : Nat)
        (js : JobStatus),
        ((runRows jid ts events n js).1).updatedAt = js.updatedAt) := by
  refine ⟨?_, ?_, ?_⟩
  · intro jobs id t j hj
    exact ⟨applyCancel t j, by simp [cancelJob, hj], rfl⟩
  · intro js dialOk events t0 ts t1
    cases dialOk <;> simp [processJob, runRows_eq]
  · intro jid ts events n js
    simp [runRows_eq]

/-- C9 witness: cancelling the stored job at clock 7 stamps `updated_at = 7`;
a completed task stamps its final clock 9; a three-event loop leaves
`updated_at` untouched. -/
theorem updatedAt_discipline_witness :
    lookupJob [("job1", job0)] "job1" = some job0 ∧
    (∃ j2, (cancelJob [("job1", job0)] "job1" 7).1 = some j2 ∧ j2.updatedAt = 7) ∧
    (processJob job0 true [RowEvent.success ["a"]] 2 (fun m => m) 9).js.updatedAt = 9 ∧
    ((runRows "job1" (fun m => m)
        [RowEvent.success ["a"], RowEvent.readError "x" "e", RowEvent.publishFail ["b"] "e"]
        1 job0).1).updatedAt = job0.updatedAt :=
  ⟨rfl,
   updatedAt_discipline.1 [("job1", job0)] "job1" 7 job0 rfl,
   updatedAt_discipline.2.1 job0 true [RowEvent.success ["a"]] 2 (fun m => m) 9,
   updatedAt_discipline.2.2 "job1" (fun m => m)
     [RowEvent.success ["a"], RowEvent.readError "x" "e", RowEvent.publishFail ["b"] "e"]
     1 job0⟩

/-- C10: an upload whose file part holds fewer than 4 bytes (an otherwise
valid request: parse ok, known non-empty model id) fails the 4-byte
`io.ReadFull` and is rejected with `READ_ERROR` before a job id is generated:
the job store is unchanged and no background task is started. -/
theorem createJob_shortFile_rejected (modelReg : List String)
    (jobs : List (String × JobStatus)) (modelId : String) (bytes : List Nat)
    (filename : String) (newId : String) (t : Nat)
    (h1 : modelId ≠ "") (h2 : modelId ∈ modelReg) (h3 : bytes.length < 4) :
    createJob modelReg jobs true modelId (some (bytes, filename)) newId t =
      (CreateOutcome.badRequest "READ_ERROR", jobs, none) := by
  have hm : maxUploadBytes = 1073741824 := rfl
  have hsize : ¬bytes.length > maxUploadBytes := by
    rw [hm]; omega
  simp [createJob, h1, h2, hsize, h3]

/-- C10 witness: a 2-byte file against the registered model `"m1"` is
rejected with `READ_ERROR` and neither a job record nor a task appears. -/
theorem createJob_shortFile_rejected_witness :
    ("m1" : String) ≠ "" ∧ "m1" ∈ ["m1"] ∧ ([7, 8] : List Nat).length < 4 ∧
    createJob ["m1"] [] true "m1" (some ([7, 8], "a.csv")) "j1" 5 =
      (CreateOutcome.badRequest "READ_ERROR", [], none) :=
  ⟨by decide, by decide, by decide,
   createJob_shortFile_rejected ["m1"] [] "m1" [7, 8] "a.csv" "j1" 5
     (by decide) (by decide) (by decide)⟩

end BatchKafka
